import Mathlib

/-!
Shallow embedding of the clan registry of `src/Bot.py` (class `ClanManager`).

Modelling conventions:
- A Python dict is modelled as a function to `Option`.  `players` is keyed by
  `str(player_id)` in the source; `str` is injective on the non-negative ints
  used as ids, so we key by `Nat` directly.
- Each registry operation returns `Option (Bool × String × ClanData)`:
  `some (ok, message, s')` models the Python `return ok, message` together
  with the registry state after the call, and `none` models an uncaught
  Python exception (`KeyError` from an absent dict key, `ValueError` from
  `list.remove` on an absent element).
- `find_player_id_by_name` is `hash(name) % 1000000` in the source; Python's
  string hash is process-seed dependent, so the hash is a parameter
  `hashFn : String → Nat` and the resolver keeps the `% 1000000` reduction
  and the `if not target_id` falsiness test (failure exactly at id 0).
- `save_data` only writes the state to disk (outside the core per the spec),
  so it is not modelled; the returned `ClanData` is the in-memory state.
-/

structure Clan where
  leader : Nat
  members : List Nat
  mods : List Nat
  coleaders : List Nat
deriving Repr, DecidableEq

structure PlayerRec where
  clan : String
  role : String
deriving Repr, DecidableEq

structure ClanData where
  clans : String → Option Clan
  players : Nat → Option PlayerRec

/-- The `{"clans": {}, "players": {}}` default state of `load_data`. -/
def emptyData : ClanData :=
  { clans := fun _ => none, players := fun _ => none }

/-- Pointwise update of the clans dict (`d[k] = v` / `del d[k]`). -/
def setClanMap (m : String → Option Clan) (k : String) (v : Option Clan) :
    String → Option Clan :=
  fun n => if n = k then v else m n

/-- Pointwise update of the players dict (`d[k] = v` / `del d[k]`). -/
def setPlayerMap (m : Nat → Option PlayerRec) (k : Nat) (v : Option PlayerRec) :
    Nat → Option PlayerRec :=
  fun p => if p = k then v else m p

/-- The `for member_id in clan_members: if str(member_id) in players: del ...`
loop of `disband_clan` and `delete_clan` (delete-if-present for each id). -/
def delPlayers (m : Nat → Option PlayerRec) (ids : List Nat) :
    Nat → Option PlayerRec :=
  ids.foldl (fun acc i => setPlayerMap acc i none) m

/-- `find_player_id_by_name`: `hash(name) % 1000000`, with Python's
seed-dependent string hash abstracted as the parameter `hashFn`. -/
def find_player_id_by_name (hashFn : String → Nat) (name : String) : Nat :=
  hashFn name % 1000000

/-- `create_clan` (src/Bot.py lines 27-45). -/
def create_clan (leader_id : Nat) (clan_name : String) (s : ClanData) :
    Option (Bool × String × ClanData) :=
  match s.clans clan_name with
  | some _ => some (false, "Clan name already exists", s)
  | none =>
      some (true, "Clan \x27" ++ clan_name ++ "\x27 created successfully!",
        { clans := setClanMap s.clans clan_name
            (some { leader := leader_id, members := [leader_id], mods := [], coleaders := [] }),
          players := setPlayerMap s.players leader_id
            (some { clan := clan_name, role := "Leader" }) })

/-- `get_player_clan` (lines 47-49): the `"clan"` field of the player's
record, absent when the player has no record. -/
def get_player_clan (s : ClanData) (player_id : Nat) : Option String :=
  match s.players player_id with
  | some r => some r.clan
  | none => none

/-- `get_player_role` (lines 51-53): defaults to `"Member"` when the player
has no record. -/
def get_player_role (s : ClanData) (player_id : Nat) : String :=
  match s.players player_id with
  | some r => r.role
  | none => "Member"

/-- `is_leader` (lines 55-57): `none` models the `KeyError` raised when
`clan_name` is not a key of the clans dict. -/
def is_leader (s : ClanData) (player_id : Nat) (clan_name : String) : Option Bool :=
  match s.clans clan_name with
  | some cl => some (decide (cl.leader = player_id))
  | none => none

/-- `is_coleader` (lines 59-61). -/
def is_coleader (s : ClanData) (player_id : Nat) (clan_name : String) : Option Bool :=
  match s.clans clan_name with
  | some cl => some (decide (player_id ∈ cl.coleaders))
  | none => none

/-- `is_mod` (lines 63-65). -/
def is_mod (s : ClanData) (player_id : Nat) (clan_name : String) : Option Bool :=
  match s.clans clan_name with
  | some cl => some (decide (player_id ∈ cl.mods))
  | none => none

/-- `has_permission` (lines 67-81): leader short-circuit, then the action
table over the player's global-lookup role. -/
def has_permission (s : ClanData) (player_id : Nat) (clan_name : String)
    (action : String) : Option Bool :=
  match is_leader s player_id clan_name with
  | none => none
  | some true => some true
  | some false =>
      let role := get_player_role s player_id
      if action = "kick" then some (decide (role ∈ ["Leader", "Co-Leader", "Mod"]))
      else if action = "invite" then some (decide (role ∈ ["Leader", "Co-Leader"]))
      else if action = "promote_demote" then some (decide (role ∈ ["Leader", "Co-Leader"]))
      else some false

/-- `kick_member` (lines 83-119). -/
def kick_member (hashFn : String → Nat) (kicker_id : Nat)
    (target_name clan_name : String) (s : ClanData) :
    Option (Bool × String × ClanData) :=
  let target_id := find_player_id_by_name hashFn target_name
  if target_id = 0 then some (false, "Player not found", s)
  else if target_id = kicker_id then some (false, "You cannot kick yourself", s)
  else
    match s.clans clan_name with
    | none => none
    | some clan =>
        if target_id ∉ clan.members then some (false, "Player is not in your clan", s)
        else
          match has_permission s kicker_id clan_name "kick" with
          | none => none
          | some perm =>
              if perm = false then
                some (false, "You don\x27t have permission to kick members", s)
              else
                match is_leader s target_id clan_name with
                | none => none
                | some il =>
                    if il then some (false, "You cannot kick the clan leader", s)
                    else
                      some (true, "Successfully kicked " ++ target_name ++ " from the clan",
                        { clans := setClanMap s.clans clan_name (some
                            { clan with members := clan.members.erase target_id,
                                        mods := clan.mods.erase target_id,
                                        coleaders := clan.coleaders.erase target_id }),
                          players := setPlayerMap s.players target_id none })

/-- `invite_member` (lines 121-145). -/
def invite_member (hashFn : String → Nat) (inviter_id : Nat)
    (target_name clan_name : String) (s : ClanData) :
    Option (Bool × String × ClanData) :=
  let target_id := find_player_id_by_name hashFn target_name
  if target_id = 0 then some (false, "Player not found", s)
  else
    match has_permission s inviter_id clan_name "invite" with
    | none => none
    | some perm =>
        if perm = false then
          some (false, "You don\x27t have permission to invite members", s)
        else
          match s.players target_id with
          | some _ => some (false, "Player is already in a clan", s)
          | none =>
              match s.clans clan_name with
              | none => none
              | some clan =>
                  some (true, "Successfully invited " ++ target_name ++ " to the clan",
                    { clans := setClanMap s.clans clan_name
                        (some { clan with members := clan.members ++ [target_id] }),
                      players := setPlayerMap s.players target_id
                        (some { clan := clan_name, role := "Member" }) })

/-- `disband_clan` (lines 147-162). -/
def disband_clan (leader_id : Nat) (clan_name : String) (s : ClanData) :
    Option (Bool × String × ClanData) :=
  match is_leader s leader_id clan_name with
  | none => none
  | some il =>
      if il = false then some (false, "Only the clan leader can disband the clan", s)
      else
        match s.clans clan_name with
        | none => none
        | some clan =>
            some (true, "Clan \x27" ++ clan_name ++ "\x27 has been disbanded",
              { clans := setClanMap s.clans clan_name none,
                players := delPlayers s.players clan.members })

/-- `promote_member` (lines 164-196).  The `none` results model the
`KeyError` raised by `players[str(target_id)]["role"] = ...` when the target
has no record, and the `ValueError` raised by `mods.remove(target_id)` when
the target is recorded as `"Mod"` but absent from this clan's mods list.
A `role` outside {"Mod", "Co-Leader"} falls through both branches and
returns success without mutating anything. -/
def promote_member (hashFn : String → Nat) (promoter_id : Nat)
    (target_name clan_name role : String) (s : ClanData) :
    Option (Bool × String × ClanData) :=
  let target_id := find_player_id_by_name hashFn target_name
  if target_id = 0 then some (false, "Player not found", s)
  else
    match has_permission s promoter_id clan_name "promote_demote" with
    | none => none
    | some perm =>
        if perm = false then
          some (false, "You don\x27t have permission to promote members", s)
        else
          match s.clans clan_name with
          | none => none
          | some clan =>
              let current_role := get_player_role s target_id
              if role = "Mod" then
                if current_role ≠ "Member" then
                  some (false, "Player is already " ++ current_role, s)
                else
                  match s.players target_id with
                  | none => none
                  | some pr =>
                      some (true, "Successfully promoted " ++ target_name ++ " to " ++ role,
                        { clans := setClanMap s.clans clan_name
                            (some { clan with mods := clan.mods ++ [target_id] }),
                          players := setPlayerMap s.players target_id
                            (some { pr with role := "Mod" }) })
              else if role = "Co-Leader" then
                if current_role = "Member" then
                  match s.players target_id with
                  | none => none
                  | some pr =>
                      some (true, "Successfully promoted " ++ target_name ++ " to " ++ role,
                        { clans := setClanMap s.clans clan_name
                            (some { clan with mods := clan.mods ++ [target_id],
                                              coleaders := clan.coleaders ++ [target_id] }),
                          players := setPlayerMap s.players target_id
                            (some { pr with role := "Co-Leader" }) })
                else if current_role = "Mod" then
                  if target_id ∉ clan.mods then none
                  else
                    match s.players target_id with
                    | none => none
                    | some pr =>
                        some (true, "Successfully promoted " ++ target_name ++ " to " ++ role,
                          { clans := setClanMap s.clans clan_name
                              (some { clan with mods := clan.mods.erase target_id,
                                                coleaders := clan.coleaders ++ [target_id] }),
                            players := setPlayerMap s.players target_id
                              (some { pr with role := "Co-Leader" }) })
                else some (false, "Player is already " ++ current_role, s)
              else
                some (true, "Successfully promoted " ++ target_name ++ " to " ++ role, s)

/-- `demote_member` (lines 198-221).  The `none` results model the
`ValueError` raised by the unguarded `coleaders.remove` / `mods.remove` when
the target is recorded with that role but absent from this clan's list. -/
def demote_member (hashFn : String → Nat) (demoter_id : Nat)
    (target_name clan_name : String) (s : ClanData) :
    Option (Bool × String × ClanData) :=
  let target_id := find_player_id_by_name hashFn target_name
  if target_id = 0 then some (false, "Player not found", s)
  else
    match has_permission s demoter_id clan_name "promote_demote" with
    | none => none
    | some perm =>
        if perm = false then
          some (false, "You don\x27t have permission to demote members", s)
        else
          match s.clans clan_name with
          | none => none
          | some clan =>
              let current_role := get_player_role s target_id
              if current_role = "Co-Leader" then
                if target_id ∉ clan.coleaders then none
                else
                  match s.players target_id with
                  | none => none
                  | some pr =>
                      some (true, "Successfully demoted " ++ target_name,
                        { clans := setClanMap s.clans clan_name
                            (some { clan with coleaders := clan.coleaders.erase target_id,
                                              mods := clan.mods ++ [target_id] }),
                          players := setPlayerMap s.players target_id
                            (some { pr with role := "Mod" }) })
              else if current_role = "Mod" then
                if target_id ∉ clan.mods then none
                else
                  match s.players target_id with
                  | none => none
                  | some pr =>
                      some (true, "Successfully demoted " ++ target_name,
                        { clans := setClanMap s.clans clan_name
                            (some { clan with mods := clan.mods.erase target_id }),
                          players := setPlayerMap s.players target_id
                            (some { pr with role := "Member" }) })
              else some (false, "Cannot demote a regular member", s)

/-- `force_kick` (lines 223-244).  `none` models the `KeyError` when the
record's clan is not in the clans dict, or the `ValueError` of the unguarded
`members.remove`. -/
def force_kick (hashFn : String → Nat) (target_name : String) (s : ClanData) :
    Option (Bool × String × ClanData) :=
  let target_id := find_player_id_by_name hashFn target_name
  if target_id = 0 then some (false, "Player not found", s)
  else
    match s.players target_id with
    | none => some (false, "Player is not in any clan", s)
    | some pr =>
        match s.clans pr.clan with
        | none => none
        | some clan =>
            if target_id ∉ clan.members then none
            else
              some (true, "Force kicked " ++ target_name ++ " from " ++ pr.clan,
                { clans := setClanMap s.clans pr.clan (some
                    { clan with members := clan.members.erase target_id,
                                mods := clan.mods.erase target_id,
                                coleaders := clan.coleaders.erase target_id }),
                  players := setPlayerMap s.players target_id none })

/-- `force_join` (lines 246-274): optional removal from the current clan
(read from the target's record), then append to the destination clan, which
is looked up again after the removal (so joining one's own clan re-appends
after the erase, exactly as the source does). -/
def force_join (hashFn : String → Nat) (target_name clan_name : String)
    (s : ClanData) : Option (Bool × String × ClanData) :=
  let target_id := find_player_id_by_name hashFn target_name
  if target_id = 0 then some (false, "Player not found", s)
  else
    match s.clans clan_name with
    | none => some (false, "Clan not found", s)
    | some _ =>
        let removed : Option ClanData :=
          match s.players target_id with
          | none => some s
          | some pr =>
              match s.clans pr.clan with
              | none => none
              | some old_clan =>
                  if target_id ∉ old_clan.members then none
                  else
                    some { s with clans := setClanMap s.clans pr.clan (some
                      { old_clan with members := old_clan.members.erase target_id,
                                      mods := old_clan.mods.erase target_id,
                                      coleaders := old_clan.coleaders.erase target_id }) }
        match removed with
        | none => none
        | some s1 =>
            match s1.clans clan_name with
            | none => none
            | some clan =>
                some (true, "Force joined " ++ target_name ++ " to " ++ clan_name,
                  { clans := setClanMap s1.clans clan_name
                      (some { clan with members := clan.members ++ [target_id] }),
                    players := setPlayerMap s1.players target_id
                      (some { clan := clan_name, role := "Member" }) })

/-- `delete_clan` (lines 276-291). -/
def delete_clan (clan_name : String) (s : ClanData) :
    Option (Bool × String × ClanData) :=
  match s.clans clan_name with
  | none => some (false, "Clan not found", s)
  | some clan =>
      some (true, "Clan \x27" ++ clan_name ++ "\x27 has been deleted",
        { clans := setClanMap s.clans clan_name none,
          players := delPlayers s.players clan.members })

/-- The public registry operations (one constructor per `ClanManager`
mutating entry point). -/
inductive Op where
  | createClan (leader_id : Nat) (clan_name : String)
  | kickMember (kicker_id : Nat) (target_name clan_name : String)
  | inviteMember (inviter_id : Nat) (target_name clan_name : String)
  | disbandClan (leader_id : Nat) (clan_name : String)
  | promoteMember (promoter_id : Nat) (target_name clan_name role : String)
  | demoteMember (demoter_id : Nat) (target_name clan_name : String)
  | forceKick (target_name : String)
  | forceJoin (target_name clan_name : String)
  | deleteClan (clan_name : String)
deriving Repr, DecidableEq

/-- Dispatch one registry operation. -/
def applyOp (hashFn : String → Nat) : Op → ClanData → Option (Bool × String × ClanData)
  | Op.createClan lid cn, s => create_clan lid cn s
  | Op.kickMember kid tn cn, s => kick_member hashFn kid tn cn s
  | Op.inviteMember iid tn cn, s => invite_member hashFn iid tn cn s
  | Op.disbandClan lid cn, s => disband_clan lid cn s
  | Op.promoteMember pid tn cn r, s => promote_member hashFn pid tn cn r s
  | Op.demoteMember did tn cn, s => demote_member hashFn did tn cn s
  | Op.forceKick tn, s => force_kick hashFn tn s
  | Op.forceJoin tn cn, s => force_join hashFn tn cn s
  | Op.deleteClan cn, s => delete_clan cn s

/-- Run a sequence of operations; `none` as soon as one raises. -/
def runOps (hashFn : String → Nat) : List Op → ClanData → Option ClanData
  | [], s => some s
  | op :: rest, s =>
      match applyOp hashFn op s with
      | some (_, _, s1) => runOps hashFn rest s1
      | none => none

/-- The caller-layer discipline the spec requires of `CreateClan`: every
create in the sequence is issued for a caller that has no Player Record at
that moment (the `/clan create` handler checks `get_player_clan` first). -/
def Disciplined (hashFn : String → Nat) : List Op → ClanData → Prop
  | [], _ => True
  | op :: rest, s =>
      (∀ lid cn, op = Op.createClan lid cn → s.players lid = none) ∧
      ∀ b m s1, applyOp hashFn op s = some (b, m, s1) → Disciplined hashFn rest s1

/-- The clans dict entry after running `ops` from the empty registry. -/
def clanAfter (hashFn : String → Nat) (ops : List Op) (c : String) : Option Clan :=
  match runOps hashFn ops emptyData with
  | some s => s.clans c
  | none => none

/-- A hash parameter sending every name to 0 (every lookup fails). -/
def hashZero : String → Nat := fun _ => 0

/-- A hash parameter resolving a few concrete demo names. -/
def hashDemo : String → Nat := fun n =>
  if n = "bob" then 2 else if n = "carl" then 3 else 0

/-- A one-clan demo registry ("a" led by player 1) used by the witnesses. -/
def demoState : ClanData :=
  { clans := fun n =>
      if n = "a" then some { leader := 1, members := [1], mods := [], coleaders := [] }
      else none,
    players := fun p =>
      if p = 1 then some { clan := "a", role := "Leader" } else none }

/-- The demo clan of `demoState2`. -/
def demoClanA : Clan := { leader := 1, members := [1, 2], mods := [], coleaders := [] }

/-- A demo registry: clan "a" led by 1 with members 1 and 2. -/
def demoState2 : ClanData :=
  { clans := fun n => if n = "a" then some demoClanA else none,
    players := fun p =>
      if p = 1 then some { clan := "a", role := "Leader" }
      else if p = 2 then some { clan := "a", role := "Member" } else none }

/-- The Player Record of player 2 in `demoState2`. -/
def demoRec2 : PlayerRec := { clan := "a", role := "Member" }

/-- The demo clan of `demoState3`: player 2 is a Mod. -/
def demoClanB : Clan := { leader := 1, members := [1, 2], mods := [2], coleaders := [] }

/-- A demo registry: clan "a" led by 1, with 2 as Mod. -/
def demoState3 : ClanData :=
  { clans := fun n => if n = "a" then some demoClanB else none,
    players := fun p =>
      if p = 1 then some { clan := "a", role := "Leader" }
      else if p = 2 then some { clan := "a", role := "Mod" } else none }

def MemberRecord (s : ClanData) : Prop :=
  ∀ c cl p, s.clans c = some cl → p ∈ cl.members →
    ∃ r, s.players p = some r ∧ r.clan = c

def RecordMember (s : ClanData) : Prop :=
  ∀ p r, s.players p = some r →
    ∃ cl, s.clans r.clan = some cl ∧ p ∈ cl.members

def MembersNodup (s : ClanData) : Prop :=
  ∀ c cl, s.clans c = some cl → cl.members.Nodup

def RegistryInv (s : ClanData) : Prop :=
  MemberRecord s ∧ RecordMember s ∧ MembersNodup s

def membersAfter (hashFn : String → Nat) (ops : List Op) (c : String) : List Nat :=
  match clanAfter hashFn ops c with
  | some cl => cl.members
  | none => []

/-! ## Theorems: helper lemmas, invariant preservation, and the claims -/

theorem setClanMap_self (m : String → Option Clan) (k : String) (v : Option Clan) :
    setClanMap m k v k = v := by
  simp [setClanMap]

theorem setClanMap_other (m : String → Option Clan) (k n : String) (v : Option Clan)
    (h : n ≠ k) : setClanMap m k v n = m n := by
  simp [setClanMap, h]

theorem setPlayerMap_self (m : Nat → Option PlayerRec) (k : Nat) (v : Option PlayerRec) :
    setPlayerMap m k v k = v := by
  simp [setPlayerMap]

theorem setPlayerMap_other (m : Nat → Option PlayerRec) (k p : Nat) (v : Option PlayerRec)
    (h : p ≠ k) : setPlayerMap m k v p = m p := by
  simp [setPlayerMap, h]

theorem delPlayers_apply (ids : List Nat) (m : Nat → Option PlayerRec) (p : Nat) :
    delPlayers m ids p = if p ∈ ids then none else m p := by
  induction ids generalizing m with
  | nil => simp [delPlayers]
  | cons a t ih =>
      have h1 : delPlayers m (a :: t) = delPlayers (setPlayerMap m a none) t := rfl
      rw [h1, ih]
      by_cases hpa : p = a
      · subst hpa; simp [setPlayerMap]
      · by_cases hpt : p ∈ t <;> simp [setPlayerMap, hpa, hpt]

theorem has_permission_leader (s : ClanData) (p : Nat) (c a : String) (cl : Clan)
    (h : s.clans c = some cl) (hl : cl.leader = p) :
    has_permission s p c a = some true := by
  simp [has_permission, is_leader, h, hl]

theorem has_permission_total (s : ClanData) (p : Nat) (c a : String) (cl : Clan)
    (h : s.clans c = some cl) : (has_permission s p c a).isSome = true := by
  by_cases hl : cl.leader = p
  · rw [has_permission_leader s p c a cl h hl]; rfl
  · simp only [has_permission, is_leader, h, hl, decide_eq_true_eq, decide_False]
    by_cases hk : a = "kick" <;> by_cases hi : a = "invite" <;>
      by_cases hpd : a = "promote_demote" <;> simp [hk, hi, hpd]

theorem create_clan_fail (lid : Nat) (cn : String) (s s' : ClanData) (m : String)
    (h : create_clan lid cn s = some (false, m, s')) : s' = s := by
  simp only [create_clan] at h
  repeat' split at h
  all_goals simp_all

theorem kick_member_fail (hashFn : String → Nat) (k : Nat) (tn cn : String)
    (s s' : ClanData) (m : String)
    (h : kick_member hashFn k tn cn s = some (false, m, s')) : s' = s := by
  simp only [kick_member] at h
  repeat' split at h
  all_goals simp_all

theorem invite_member_fail (hashFn : String → Nat) (i : Nat) (tn cn : String)
    (s s' : ClanData) (m : String)
    (h : invite_member hashFn i tn cn s = some (false, m, s')) : s' = s := by
  simp only [invite_member] at h
  repeat' split at h
  all_goals simp_all

theorem disband_clan_fail (lid : Nat) (cn : String) (s s' : ClanData) (m : String)
    (h : disband_clan lid cn s = some (false, m, s')) : s' = s := by
  simp only [disband_clan] at h
  repeat' split at h
  all_goals simp_all

theorem promote_member_fail (hashFn : String → Nat) (p : Nat) (tn cn r : String)
    (s s' : ClanData) (m : String)
    (h : promote_member hashFn p tn cn r s = some (false, m, s')) : s' = s := by
  simp only [promote_member] at h
  repeat' split at h
  all_goals simp_all

theorem demote_member_fail (hashFn : String → Nat) (d : Nat) (tn cn : String)
    (s s' : ClanData) (m : String)
    (h : demote_member hashFn d tn cn s = some (false, m, s')) : s' = s := by
  simp only [demote_member] at h
  repeat' split at h
  all_goals simp_all

theorem force_kick_fail (hashFn : String → Nat) (tn : String)
    (s s' : ClanData) (m : String)
    (h : force_kick hashFn tn s = some (false, m, s')) : s' = s := by
  simp only [force_kick] at h
  repeat' split at h
  all_goals simp_all

theorem force_join_fail (hashFn : String → Nat) (tn cn : String)
    (s s' : ClanData) (m : String)
    (h : force_join hashFn tn cn s = some (false, m, s')) : s' = s := by
  simp only [force_join] at h
  repeat' split at h
  all_goals simp_all

theorem delete_clan_fail (cn : String) (s s' : ClanData) (m : String)
    (h : delete_clan cn s = some (false, m, s')) : s' = s := by
  simp only [delete_clan] at h
  repeat' split at h
  all_goals simp_all

/-- C1: for every registry operation (CreateClan, KickMember, InviteMember,
DisbandClan, PromoteMember, DemoteMember, ForceKick, ForceJoin, DeleteClan)
and every registry state, if the call returns `ok = false` then the registry
state (both mappings) after the call equals the state before the call: no
failing call performs any mutation. -/
theorem registry_failure_preserves_state (hashFn : String → Nat) (op : Op)
    (s s' : ClanData) (m : String)
    (h : applyOp hashFn op s = some (false, m, s')) : s' = s := by
  cases op
  case createClan lid cn => exact create_clan_fail lid cn s s' m h
  case kickMember kid tn cn => exact kick_member_fail hashFn kid tn cn s s' m h
  case inviteMember iid tn cn => exact invite_member_fail hashFn iid tn cn s s' m h
  case disbandClan lid cn => exact disband_clan_fail lid cn s s' m h
  case promoteMember pid tn cn r => exact promote_member_fail hashFn pid tn cn r s s' m h
  case demoteMember did tn cn => exact demote_member_fail hashFn did tn cn s s' m h
  case forceKick tn => exact force_kick_fail hashFn tn s s' m h
  case forceJoin tn cn => exact force_join_fail hashFn tn cn s s' m h
  case deleteClan cn => exact delete_clan_fail cn s s' m h

/-- Witness for C1: creating a clan whose name already exists fails and the
state after the call is the state before it. -/
theorem registry_failure_preserves_state_witness :
    applyOp hashZero (Op.createClan 2 "a") demoState
      = some (false, "Clan name already exists", demoState) ∧ demoState = demoState :=
  ⟨rfl, registry_failure_preserves_state hashZero (Op.createClan 2 "a") demoState demoState
    "Clan name already exists" rfl⟩

/-- C5: for every player id, existing clan and action string, HasPermission
returns true whenever the player is that clan's leader; otherwise it returns
true iff the player's globally looked-up role (not scoped to the clan) is in
the action's allowed set — {Leader, Co-Leader, Mod} for "kick" and
{Leader, Co-Leader} for "invite" and "promote_demote" — and returns false
for every other action string.  The first conjunct records that the call
always returns (no exception) on an existing clan. -/
theorem has_permission_spec (s : ClanData) (p : Nat) (c a : String) (cl : Clan)
    (h : s.clans c = some cl) :
    (has_permission s p c a).isSome = true ∧
    (has_permission s p c a = some true ↔
      (cl.leader = p ∨
        (a = "kick" ∧ get_player_role s p ∈ ["Leader", "Co-Leader", "Mod"]) ∨
        ((a = "invite" ∨ a = "promote_demote") ∧
          get_player_role s p ∈ ["Leader", "Co-Leader"]))) := by
  refine ⟨has_permission_total s p c a cl h, ?_⟩
  by_cases hl : cl.leader = p
  · rw [has_permission_leader s p c a cl h hl]
    simp [hl]
  · simp only [has_permission, is_leader, h, hl, decide_False]
    by_cases hk : a = "kick" <;> by_cases hi : a = "invite" <;>
      by_cases hpd : a = "promote_demote" <;> simp_all

/-- Witness for C5 at a concrete input: the leader of the demo clan holds
the kick permission. -/
theorem has_permission_spec_witness :
    demoState.clans "a" = some { leader := 1, members := [1], mods := [], coleaders := [] } ∧
    ((has_permission demoState 1 "a" "kick").isSome = true ∧
     (has_permission demoState 1 "a" "kick" = some true ↔
       (Clan.leader { leader := 1, members := [1], mods := [], coleaders := [] } = 1 ∨
         ("kick" = "kick" ∧
           get_player_role demoState 1 ∈ ["Leader", "Co-Leader", "Mod"]) ∨
         (("kick" = "invite" ∨ "kick" = "promote_demote") ∧
           get_player_role demoState 1 ∈ ["Leader", "Co-Leader"])))) :=
  ⟨rfl, has_permission_spec demoState 1 "a" "kick"
    { leader := 1, members := [1], mods := [], coleaders := [] } rfl⟩

/-- C6: KickMember fails iff the target cannot be resolved, or the resolved
target equals the kicker, or the target is not in the clan's members, or the
kicker lacks the kick permission, or the target is the clan's leader (leaders
are unkickable regardless of the kicker's permission level); on success the
target is removed from the clan's members, mods and coleaders lists and the
target's Player Record is deleted, leaving the target clanless. -/
theorem kick_member_spec (hashFn : String → Nat) (kicker_id : Nat)
    (target_name clan_name : String) (s : ClanData) (cl : Clan)
    (hc : s.clans clan_name = some cl)
    (hm : cl.members.Nodup) (hmods : cl.mods.Nodup) (hco : cl.coleaders.Nodup) :
    (kick_member hashFn kicker_id target_name clan_name s).isSome = true ∧
    ((∃ msg s', kick_member hashFn kicker_id target_name clan_name s = some (false, msg, s')) ↔
      (find_player_id_by_name hashFn target_name = 0 ∨
       find_player_id_by_name hashFn target_name = kicker_id ∨
       find_player_id_by_name hashFn target_name ∉ cl.members ∨
       has_permission s kicker_id clan_name "kick" = some false ∨
       cl.leader = find_player_id_by_name hashFn target_name)) ∧
    (∀ msg s', kick_member hashFn kicker_id target_name clan_name s = some (true, msg, s') →
      (s'.clans clan_name = some
        { cl with members := cl.members.erase (find_player_id_by_name hashFn target_name),
                  mods := cl.mods.erase (find_player_id_by_name hashFn target_name),
                  coleaders := cl.coleaders.erase (find_player_id_by_name hashFn target_name) } ∧
       (∀ c', c' ≠ clan_name → s'.clans c' = s.clans c') ∧
       s'.players (find_player_id_by_name hashFn target_name) = none ∧
       (∀ q, q ≠ find_player_id_by_name hashFn target_name → s'.players q = s.players q) ∧
       (∀ cl', s'.clans clan_name = some cl' →
         find_player_id_by_name hashFn target_name ∉ cl'.members ∧
         find_player_id_by_name hashFn target_name ∉ cl'.mods ∧
         find_player_id_by_name hashFn target_name ∉ cl'.coleaders))) := by
  obtain ⟨pb, hpb⟩ : ∃ b, has_permission s kicker_id clan_name "kick" = some b :=
    Option.isSome_iff_exists.mp (has_permission_total s kicker_id clan_name "kick" cl hc)
  simp only [kick_member]
  generalize hres : find_player_id_by_name hashFn target_name = t
  simp only [hc, hpb, is_leader]
  by_cases ht0 : t = 0
  · simp [ht0]
  · simp only [ht0, if_false]
    by_cases htk : t = kicker_id
    · simp [htk]
    · simp only [htk, if_false]
      by_cases htm : t ∈ cl.members
      · simp only [htm, not_true, if_false]
        cases pb
        · simp [hpb, htm]
        · simp only [Bool.true_eq_false, if_false]
          by_cases hlt : cl.leader = t
          · simp [hlt, hpb, htm]
          · simp only [hlt, decide_False, Bool.false_eq_true, if_false]
            refine ⟨rfl, ?_, ?_⟩
            · constructor
              · rintro ⟨msg, s', hfalse⟩
                exact absurd hfalse (by simp)
              · rintro (h | h | h | h | h) <;> simp_all
            · rintro msg s' heq
              simp only [Option.some.injEq, Prod.mk.injEq, true_and] at heq
              obtain ⟨-, hstate⟩ := heq
              subst hstate
              refine ⟨setClanMap_self _ _ _, ?_, setPlayerMap_self _ _ _, ?_, ?_⟩
              · intro c' hne
                exact setClanMap_other _ _ _ _ hne
              · intro q hq
                exact setPlayerMap_other _ _ _ _ hq
              · intro cl' hcl'
                simp only [setClanMap_self, Option.some.injEq] at hcl'
                subst hcl'
                exact ⟨hm.not_mem_erase, hmods.not_mem_erase, hco.not_mem_erase⟩
      · simp [htm]

/-- Witness for C6 at a concrete input: leader 1 kicking "bob" (resolved to
player 2) out of clan "a". -/
theorem kick_member_spec_witness :
    (demoState2.clans "a" = some demoClanA ∧ demoClanA.members.Nodup ∧
      demoClanA.mods.Nodup ∧ demoClanA.coleaders.Nodup) ∧
    ((kick_member hashDemo 1 "bob" "a" demoState2).isSome = true ∧
     ((∃ msg s', kick_member hashDemo 1 "bob" "a" demoState2 = some (false, msg, s')) ↔
       (find_player_id_by_name hashDemo "bob" = 0 ∨
        find_player_id_by_name hashDemo "bob" = 1 ∨
        find_player_id_by_name hashDemo "bob" ∉ demoClanA.members ∨
        has_permission demoState2 1 "a" "kick" = some false ∨
        demoClanA.leader = find_player_id_by_name hashDemo "bob")) ∧
     (∀ msg s', kick_member hashDemo 1 "bob" "a" demoState2 = some (true, msg, s') →
       (s'.clans "a" = some
         { demoClanA with
             members := demoClanA.members.erase (find_player_id_by_name hashDemo "bob"),
             mods := demoClanA.mods.erase (find_player_id_by_name hashDemo "bob"),
             coleaders := demoClanA.coleaders.erase (find_player_id_by_name hashDemo "bob") } ∧
        (∀ c', c' ≠ "a" → s'.clans c' = demoState2.clans c') ∧
        s'.players (find_player_id_by_name hashDemo "bob") = none ∧
        (∀ q, q ≠ find_player_id_by_name hashDemo "bob" → s'.players q = demoState2.players q) ∧
        (∀ cl', s'.clans "a" = some cl' →
          find_player_id_by_name hashDemo "bob" ∉ cl'.members ∧
          find_player_id_by_name hashDemo "bob" ∉ cl'.mods ∧
          find_player_id_by_name hashDemo "bob" ∉ cl'.coleaders)))) :=
  ⟨⟨rfl, by decide, by decide, by decide⟩,
   kick_member_spec hashDemo 1 "bob" "a" demoState2 demoClanA rfl
     (by decide) (by decide) (by decide)⟩

/-- C9: InviteMember fails iff the target cannot be resolved, or the inviter
lacks the invite permission, or the target already has a Player Record
(is already in some clan, including this one); on success the target is
appended to the clan's members and a Player Record is created for the target
with this clan and role Member. -/
theorem invite_member_spec (hashFn : String → Nat) (inviter_id : Nat)
    (target_name clan_name : String) (s : ClanData) (cl : Clan)
    (hc : s.clans clan_name = some cl) :
    (invite_member hashFn inviter_id target_name clan_name s).isSome = true ∧
    ((∃ msg s', invite_member hashFn inviter_id target_name clan_name s = some (false, msg, s')) ↔
      (find_player_id_by_name hashFn target_name = 0 ∨
       has_permission s inviter_id clan_name "invite" = some false ∨
       (s.players (find_player_id_by_name hashFn target_name)).isSome = true)) ∧
    (∀ msg s', invite_member hashFn inviter_id target_name clan_name s = some (true, msg, s') →
      (s'.clans clan_name = some
        { cl with members := cl.members ++ [find_player_id_by_name hashFn target_name] } ∧
       (∀ c', c' ≠ clan_name → s'.clans c' = s.clans c') ∧
       s'.players (find_player_id_by_name hashFn target_name) =
         some { clan := clan_name, role := "Member" } ∧
       (∀ q, q ≠ find_player_id_by_name hashFn target_name → s'.players q = s.players q))) := by
  obtain ⟨pb, hpb⟩ : ∃ b, has_permission s inviter_id clan_name "invite" = some b :=
    Option.isSome_iff_exists.mp (has_permission_total s inviter_id clan_name "invite" cl hc)
  simp only [invite_member]
  generalize hres : find_player_id_by_name hashFn target_name = t
  simp only [hpb, hc]
  by_cases ht0 : t = 0
  · simp [ht0]
  · simp only [ht0, if_false]
    cases pb
    · simp [hpb]
    · simp only [Bool.true_eq_false, if_false]
      cases hrec : s.players t with
      | some r => simp [hrec]
      | none =>
          simp only [hrec]
          refine ⟨rfl, ?_, ?_⟩
          · constructor
            · rintro ⟨msg, s', hfalse⟩
              exact absurd hfalse (by simp)
            · rintro (h | h | h) <;> simp_all
          · rintro msg s' heq
            simp only [Option.some.injEq, Prod.mk.injEq, true_and] at heq
            obtain ⟨-, hstate⟩ := heq
            subst hstate
            refine ⟨setClanMap_self _ _ _, ?_, setPlayerMap_self _ _ _, ?_⟩
            · intro c' hne
              exact setClanMap_other _ _ _ _ hne
            · intro q hq
              exact setPlayerMap_other _ _ _ _ hq

/-- Witness for C9 at a concrete input: leader 1 invites "bob" (resolved to
clanless player 2) into clan "a". -/
theorem invite_member_spec_witness :
    demoState.clans "a" = some { leader := 1, members := [1], mods := [], coleaders := [] } ∧
    ((invite_member hashDemo 1 "bob" "a" demoState).isSome = true ∧
     ((∃ msg s', invite_member hashDemo 1 "bob" "a" demoState = some (false, msg, s')) ↔
       (find_player_id_by_name hashDemo "bob" = 0 ∨
        has_permission demoState 1 "a" "invite" = some false ∨
        (demoState.players (find_player_id_by_name hashDemo "bob")).isSome = true)) ∧
     (∀ msg s', invite_member hashDemo 1 "bob" "a" demoState = some (true, msg, s') →
       (s'.clans "a" = some
         { Clan.mk 1 [1] [] [] with
             members := [1] ++ [find_player_id_by_name hashDemo "bob"] } ∧
        (∀ c', c' ≠ "a" → s'.clans c' = demoState.clans c') ∧
        s'.players (find_player_id_by_name hashDemo "bob") =
          some { clan := "a", role := "Member" } ∧
        (∀ q, q ≠ find_player_id_by_name hashDemo "bob" →
          s'.players q = demoState.players q)))) :=
  ⟨rfl, invite_member_spec hashDemo 1 "bob" "a" demoState
    { leader := 1, members := [1], mods := [], coleaders := [] } rfl⟩

/-- C10: for a toRole string outside {Mod, Co-Leader}, if the target
resolves and the promoter holds the promote_demote permission, PromoteMember
returns ok = true with a "Successfully promoted" message while leaving the
registry state completely unchanged: an out-of-domain role is a silent no-op
reported as success, not a failure. -/
theorem promote_member_out_of_domain (hashFn : String → Nat) (promoter_id : Nat)
    (target_name clan_name role : String) (s : ClanData) (cl : Clan)
    (hc : s.clans clan_name = some cl)
    (hrole1 : role ≠ "Mod") (hrole2 : role ≠ "Co-Leader")
    (ht : find_player_id_by_name hashFn target_name ≠ 0)
    (hperm : has_permission s promoter_id clan_name "promote_demote" = some true) :
    promote_member hashFn promoter_id target_name clan_name role s =
      some (true, "Successfully promoted " ++ target_name ++ " to " ++ role, s) := by
  simp [promote_member, ht, hperm, hc, hrole1, hrole2]

/-- Witness for C10 at a concrete input: promoting "bob" to the nonsense
role "Banana" reports success and leaves the registry untouched. -/
theorem promote_member_out_of_domain_witness :
    (demoState2.clans "a" = some demoClanA ∧ "Banana" ≠ "Mod" ∧ "Banana" ≠ "Co-Leader" ∧
      find_player_id_by_name hashDemo "bob" ≠ 0 ∧
      has_permission demoState2 1 "a" "promote_demote" = some true) ∧
    promote_member hashDemo 1 "bob" "a" "Banana" demoState2 =
      some (true, "Successfully promoted " ++ "bob" ++ " to " ++ "Banana", demoState2) :=
  ⟨⟨rfl, by decide, by decide, by decide, rfl⟩,
   promote_member_out_of_domain hashDemo 1 "bob" "a" "Banana" demoState2 demoClanA rfl
     (by decide) (by decide) (by decide) rfl⟩

/-- C7: PromoteMember with toRole in {Mod, Co-Leader} fails when the target
cannot be resolved or the promoter lacks the promote_demote permission;
promotion to Mod succeeds exactly from current role Member (appending the
target to mods), otherwise fails with "Player is already <role>"; promotion
to Co-Leader from Member adds the target to both mods and coleaders with
resulting role Co-Leader, from Mod moves the target from mods to coleaders,
and from Leader or Co-Leader fails with "Player is already <role>".  The
hypotheses require the target to have a Player Record and, when recorded as
Mod, to be listed in this clan's mods (otherwise the source raises, see C4). -/
theorem promote_member_spec (hashFn : String → Nat) (promoter_id : Nat)
    (target_name clan_name role : String) (s : ClanData) (cl : Clan) (pr : PlayerRec)
    (hc : s.clans clan_name = some cl)
    (hrec : s.players (find_player_id_by_name hashFn target_name) = some pr)
    (hsync : pr.role = "Mod" → find_player_id_by_name hashFn target_name ∈ cl.mods) :
    (find_player_id_by_name hashFn target_name = 0 →
      promote_member hashFn promoter_id target_name clan_name role s =
        some (false, "Player not found", s)) ∧
    (find_player_id_by_name hashFn target_name ≠ 0 →
      has_permission s promoter_id clan_name "promote_demote" = some false →
      promote_member hashFn promoter_id target_name clan_name role s =
        some (false, "You don\x27t have permission to promote members", s)) ∧
    (find_player_id_by_name hashFn target_name ≠ 0 →
      has_permission s promoter_id clan_name "promote_demote" = some true →
      ((role = "Mod" → pr.role = "Member" →
         promote_member hashFn promoter_id target_name clan_name role s =
           some (true, "Successfully promoted " ++ target_name ++ " to " ++ role,
             { clans := setClanMap s.clans clan_name
                 (some { cl with mods := cl.mods ++ [find_player_id_by_name hashFn target_name] }),
               players := setPlayerMap s.players (find_player_id_by_name hashFn target_name)
                 (some { pr with role := "Mod" }) })) ∧
       (role = "Mod" → pr.role ≠ "Member" →
         promote_member hashFn promoter_id target_name clan_name role s =
           some (false, "Player is already " ++ pr.role, s)) ∧
       (role = "Co-Leader" → pr.role = "Member" →
         promote_member hashFn promoter_id target_name clan_name role s =
           some (true, "Successfully promoted " ++ target_name ++ " to " ++ role,
             { clans := setClanMap s.clans clan_name
                 (some { cl with
                     mods := cl.mods ++ [find_player_id_by_name hashFn target_name],
                     coleaders := cl.coleaders ++ [find_player_id_by_name hashFn target_name] }),
               players := setPlayerMap s.players (find_player_id_by_name hashFn target_name)
                 (some { pr with role := "Co-Leader" }) })) ∧
       (role = "Co-Leader" → pr.role = "Mod" →
         promote_member hashFn promoter_id target_name clan_name role s =
           some (true, "Successfully promoted " ++ target_name ++ " to " ++ role,
             { clans := setClanMap s.clans clan_name
                 (some { cl with
                     mods := cl.mods.erase (find_player_id_by_name hashFn target_name),
                     coleaders := cl.coleaders ++ [find_player_id_by_name hashFn target_name] }),
               players := setPlayerMap s.players (find_player_id_by_name hashFn target_name)
                 (some { pr with role := "Co-Leader" }) })) ∧
       (role = "Co-Leader" → (pr.role = "Leader" ∨ pr.role = "Co-Leader") →
         promote_member hashFn promoter_id target_name clan_name role s =
           some (false, "Player is already " ++ pr.role, s)))) := by
  refine ⟨?_, ?_, ?_⟩
  · intro ht0
    simp [promote_member, ht0]
  · intro ht0 hperm
    simp [promote_member, ht0, hperm]
  · intro ht0 hperm
    refine ⟨?_, ?_, ?_, ?_, ?_⟩
    · intro hr hm
      subst hr
      simp [promote_member, ht0, hperm, hc, get_player_role, hrec, hm]
    · intro hr hm
      subst hr
      simp [promote_member, ht0, hperm, hc, get_player_role, hrec, hm]
    · intro hr hm
      subst hr
      simp [promote_member, ht0, hperm, hc, get_player_role, hrec, hm]
    · intro hr hm
      subst hr
      have hin := hsync hm
      simp [promote_member, ht0, hperm, hc, get_player_role, hrec, hm, hin]
    · rintro hr (hm | hm) <;> subst hr <;>
        simp [promote_member, ht0, hperm, hc, get_player_role, hrec, hm]

/-- Witness for C7 at a concrete input: leader 1 promotes Member "bob"
(player 2) to Mod in clan "a". -/
theorem promote_member_spec_witness :
    (demoState2.clans "a" = some demoClanA ∧
     demoState2.players (find_player_id_by_name hashDemo "bob") = some demoRec2 ∧
     (demoRec2.role = "Mod" → find_player_id_by_name hashDemo "bob" ∈ demoClanA.mods)) ∧
    ((find_player_id_by_name hashDemo "bob" = 0 →
      promote_member hashDemo 1 "bob" "a" "Mod" demoState2 =
        some (false, "Player not found", demoState2)) ∧
    (find_player_id_by_name hashDemo "bob" ≠ 0 →
      has_permission demoState2 1 "a" "promote_demote" = some false →
      promote_member hashDemo 1 "bob" "a" "Mod" demoState2 =
        some (false, "You don\x27t have permission to promote members", demoState2)) ∧
    (find_player_id_by_name hashDemo "bob" ≠ 0 →
      has_permission demoState2 1 "a" "promote_demote" = some true →
      (("Mod" = "Mod" → demoRec2.role = "Member" →
         promote_member hashDemo 1 "bob" "a" "Mod" demoState2 =
           some (true, "Successfully promoted " ++ "bob" ++ " to " ++ "Mod",
             { clans := setClanMap demoState2.clans "a"
                 (some { demoClanA with
                     mods := demoClanA.mods ++ [find_player_id_by_name hashDemo "bob"] }),
               players := setPlayerMap demoState2.players (find_player_id_by_name hashDemo "bob")
                 (some { demoRec2 with role := "Mod" }) })) ∧
       ("Mod" = "Mod" → demoRec2.role ≠ "Member" →
         promote_member hashDemo 1 "bob" "a" "Mod" demoState2 =
           some (false, "Player is already " ++ demoRec2.role, demoState2)) ∧
       ("Mod" = "Co-Leader" → demoRec2.role = "Member" →
         promote_member hashDemo 1 "bob" "a" "Mod" demoState2 =
           some (true, "Successfully promoted " ++ "bob" ++ " to " ++ "Mod",
             { clans := setClanMap demoState2.clans "a"
                 (some { demoClanA with
                     mods := demoClanA.mods ++ [find_player_id_by_name hashDemo "bob"],
                     coleaders := demoClanA.coleaders ++ [find_player_id_by_name hashDemo "bob"] }),
               players := setPlayerMap demoState2.players (find_player_id_by_name hashDemo "bob")
                 (some { demoRec2 with role := "Co-Leader" }) })) ∧
       ("Mod" = "Co-Leader" → demoRec2.role = "Mod" →
         promote_member hashDemo 1 "bob" "a" "Mod" demoState2 =
           some (true, "Successfully promoted " ++ "bob" ++ " to " ++ "Mod",
             { clans := setClanMap demoState2.clans "a"
                 (some { demoClanA with
                     mods := demoClanA.mods.erase (find_player_id_by_name hashDemo "bob"),
                     coleaders := demoClanA.coleaders ++ [find_player_id_by_name hashDemo "bob"] }),
               players := setPlayerMap demoState2.players (find_player_id_by_name hashDemo "bob")
                 (some { demoRec2 with role := "Co-Leader" }) })) ∧
       ("Mod" = "Co-Leader" → (demoRec2.role = "Leader" ∨ demoRec2.role = "Co-Leader") →
         promote_member hashDemo 1 "bob" "a" "Mod" demoState2 =
           some (false, "Player is already " ++ demoRec2.role, demoState2))))) :=
  ⟨⟨rfl, rfl, by decide⟩,
   promote_member_spec hashDemo 1 "bob" "a" "Mod" demoState2 demoClanA demoRec2 rfl rfl
     (by decide)⟩

/-- C8: DemoteMember fails when the target cannot be resolved or the demoter
lacks the promote_demote permission; a target whose current (global-lookup)
role is Co-Leader is removed from coleaders, added to mods, and its record
role becomes Mod; a target at Mod is removed from mods and its role becomes
Member; in every other case — in particular roles Member and Leader — the
call fails with "Cannot demote a regular member" (the branch that also
prevents demoting the leader).  The sync hypotheses require a target
recorded as Co-Leader (resp. Mod) to be listed in this clan's coleaders
(resp. mods) — otherwise the source raises, see C4. -/
theorem demote_member_spec (hashFn : String → Nat) (demoter_id : Nat)
    (target_name clan_name : String) (s : ClanData) (cl : Clan)
    (hc : s.clans clan_name = some cl)
    (hsyncC : get_player_role s (find_player_id_by_name hashFn target_name) = "Co-Leader" →
      find_player_id_by_name hashFn target_name ∈ cl.coleaders)
    (hsyncM : get_player_role s (find_player_id_by_name hashFn target_name) = "Mod" →
      find_player_id_by_name hashFn target_name ∈ cl.mods) :
    (find_player_id_by_name hashFn target_name = 0 →
      demote_member hashFn demoter_id target_name clan_name s =
        some (false, "Player not found", s)) ∧
    (find_player_id_by_name hashFn target_name ≠ 0 →
      has_permission s demoter_id clan_name "promote_demote" = some false →
      demote_member hashFn demoter_id target_name clan_name s =
        some (false, "You don\x27t have permission to demote members", s)) ∧
    (find_player_id_by_name hashFn target_name ≠ 0 →
      has_permission s demoter_id clan_name "promote_demote" = some true →
      ((get_player_role s (find_player_id_by_name hashFn target_name) = "Co-Leader" →
         ∃ pr, s.players (find_player_id_by_name hashFn target_name) = some pr ∧
           demote_member hashFn demoter_id target_name clan_name s =
             some (true, "Successfully demoted " ++ target_name,
               { clans := setClanMap s.clans clan_name
                   (some { cl with
                       coleaders := cl.coleaders.erase (find_player_id_by_name hashFn target_name),
                       mods := cl.mods ++ [find_player_id_by_name hashFn target_name] }),
                 players := setPlayerMap s.players (find_player_id_by_name hashFn target_name)
                   (some { pr with role := "Mod" }) })) ∧
       (get_player_role s (find_player_id_by_name hashFn target_name) = "Mod" →
         ∃ pr, s.players (find_player_id_by_name hashFn target_name) = some pr ∧
           demote_member hashFn demoter_id target_name clan_name s =
             some (true, "Successfully demoted " ++ target_name,
               { clans := setClanMap s.clans clan_name
                   (some { cl with
                       mods := cl.mods.erase (find_player_id_by_name hashFn target_name) }),
                 players := setPlayerMap s.players (find_player_id_by_name hashFn target_name)
                   (some { pr with role := "Member" }) })) ∧
       (get_player_role s (find_player_id_by_name hashFn target_name) ≠ "Co-Leader" →
         get_player_role s (find_player_id_by_name hashFn target_name) ≠ "Mod" →
         demote_member hashFn demoter_id target_name clan_name s =
           some (false, "Cannot demote a regular member", s)))) := by
  refine ⟨?_, ?_, ?_⟩
  · intro ht0
    simp [demote_member, ht0]
  · intro ht0 hperm
    simp [demote_member, ht0, hperm]
  · intro ht0 hperm
    refine ⟨?_, ?_, ?_⟩
    · intro hg
      have hin := hsyncC hg
      cases hp : s.players (find_player_id_by_name hashFn target_name) with
      | none => simp [get_player_role, hp] at hg
      | some pr =>
          have hpr : pr.role = "Co-Leader" := by
            simpa [get_player_role, hp] using hg
          exact ⟨pr, rfl, by
            simp [demote_member, ht0, hperm, hc, get_player_role, hp, hpr, hin]⟩
    · intro hg
      have hin := hsyncM hg
      cases hp : s.players (find_player_id_by_name hashFn target_name) with
      | none => simp [get_player_role, hp] at hg
      | some pr =>
          have hpr : pr.role = "Mod" := by
            simpa [get_player_role, hp] using hg
          exact ⟨pr, rfl, by
            simp [demote_member, ht0, hperm, hc, get_player_role, hp, hpr, hin]⟩
    · intro hg1 hg2
      simp [demote_member, ht0, hperm, hc, hg1, hg2]

/-- Witness for C8 at a concrete input: leader 1 demotes Mod "bob"
(player 2) in clan "a". -/
theorem demote_member_spec_witness :
    (demoState3.clans "a" = some demoClanB ∧
     (get_player_role demoState3 (find_player_id_by_name hashDemo "bob") = "Co-Leader" →
       find_player_id_by_name hashDemo "bob" ∈ demoClanB.coleaders) ∧
     (get_player_role demoState3 (find_player_id_by_name hashDemo "bob") = "Mod" →
       find_player_id_by_name hashDemo "bob" ∈ demoClanB.mods)) ∧
    ((find_player_id_by_name hashDemo "bob" = 0 →
      demote_member hashDemo 1 "bob" "a" demoState3 =
        some (false, "Player not found", demoState3)) ∧
    (find_player_id_by_name hashDemo "bob" ≠ 0 →
      has_permission demoState3 1 "a" "promote_demote" = some false →
      demote_member hashDemo 1 "bob" "a" demoState3 =
        some (false, "You don\x27t have permission to demote members", demoState3)) ∧
    (find_player_id_by_name hashDemo "bob" ≠ 0 →
      has_permission demoState3 1 "a" "promote_demote" = some true →
      ((get_player_role demoState3 (find_player_id_by_name hashDemo "bob") = "Co-Leader" →
         ∃ pr, demoState3.players (find_player_id_by_name hashDemo "bob") = some pr ∧
           demote_member hashDemo 1 "bob" "a" demoState3 =
             some (true, "Successfully demoted " ++ "bob",
               { clans := setClanMap demoState3.clans "a"
                   (some { demoClanB with
                       coleaders := demoClanB.coleaders.erase (find_player_id_by_name hashDemo "bob"),
                       mods := demoClanB.mods ++ [find_player_id_by_name hashDemo "bob"] }),
                 players := setPlayerMap demoState3.players (find_player_id_by_name hashDemo "bob")
                   (some { pr with role := "Mod" }) })) ∧
       (get_player_role demoState3 (find_player_id_by_name hashDemo "bob") = "Mod" →
         ∃ pr, demoState3.players (find_player_id_by_name hashDemo "bob") = some pr ∧
           demote_member hashDemo 1 "bob" "a" demoState3 =
             some (true, "Successfully demoted " ++ "bob",
               { clans := setClanMap demoState3.clans "a"
                   (some { demoClanB with
                       mods := demoClanB.mods.erase (find_player_id_by_name hashDemo "bob") }),
                 players := setPlayerMap demoState3.players (find_player_id_by_name hashDemo "bob")
                   (some { pr with role := "Member" }) })) ∧
       (get_player_role demoState3 (find_player_id_by_name hashDemo "bob") ≠ "Co-Leader" →
         get_player_role demoState3 (find_player_id_by_name hashDemo "bob") ≠ "Mod" →
         demote_member hashDemo 1 "bob" "a" demoState3 =
           some (false, "Cannot demote a regular member", demoState3))))) :=
  ⟨⟨rfl, by decide, by decide⟩,
   demote_member_spec hashDemo 1 "bob" "a" demoState3 demoClanB rfl (by decide) (by decide)⟩

theorem registryInv_transfer (s s' : ClanData)
    (hclans : ∀ c, (s'.clans c).map Clan.members = (s.clans c).map Clan.members)
    (hplayers : ∀ p, (s'.players p).map PlayerRec.clan = (s.players p).map PlayerRec.clan)
    (hInv : RegistryInv s) : RegistryInv s' := by
  obtain ⟨hmr, hrm, hnd⟩ := hInv
  refine ⟨?_, ?_, ?_⟩
  · intro c cl p hcl hp
    have h1 := hclans c
    rw [hcl] at h1
    cases hc0 : s.clans c with
    | none => rw [hc0] at h1; simp at h1
    | some cl0 =>
        rw [hc0] at h1
        simp only [Option.map_some', Option.some.injEq] at h1
        have hp0 : p ∈ cl0.members := h1 ▸ hp
        obtain ⟨r, hr, hrc⟩ := hmr c cl0 p hc0 hp0
        have h2 := hplayers p
        rw [hr] at h2
        cases hq : s'.players p with
        | none => rw [hq] at h2; simp at h2
        | some r' =>
            rw [hq] at h2
            simp only [Option.map_some', Option.some.injEq] at h2
            exact ⟨r', rfl, by rw [h2, hrc]⟩
  · intro p r hr
    have h2 := hplayers p
    rw [hr] at h2
    cases hq : s.players p with
    | none => rw [hq] at h2; simp at h2
    | some r0 =>
        rw [hq] at h2
        simp only [Option.map_some', Option.some.injEq] at h2
        obtain ⟨cl0, hcl0, hp0⟩ := hrm p r0 hq
        have h1 := hclans r.clan
        rw [h2, hcl0] at h1
        cases hc1 : s'.clans r0.clan with
        | none => rw [hc1] at h1; simp at h1
        | some cl1 =>
            rw [hc1] at h1
            simp only [Option.map_some', Option.some.injEq] at h1
            exact ⟨cl1, by rw [h2]; exact hc1, by rw [h1]; exact hp0⟩
  · intro c cl hcl
    have h1 := hclans c
    rw [hcl] at h1
    cases hc0 : s.clans c with
    | none => rw [hc0] at h1; simp at h1
    | some cl0 =>
        rw [hc0] at h1
        simp only [Option.map_some', Option.some.injEq] at h1
        rw [h1]
        exact hnd c cl0 hc0

theorem registryInv_remove (s : ClanData) (cn : String) (cl : Clan) (t : Nat)
    (mm cc : List Nat)
    (hInv : RegistryInv s) (hc : s.clans cn = some cl) (htm : t ∈ cl.members) :
    RegistryInv
      { clans := setClanMap s.clans cn
          (some { cl with members := cl.members.erase t, mods := mm, coleaders := cc }),
        players := setPlayerMap s.players t none } := by
  obtain ⟨hmr, hrm, hnd⟩ := hInv
  have hndcl := hnd cn cl hc
  obtain ⟨rt, hrt, hrtc⟩ := hmr cn cl t hc htm
  refine ⟨?_, ?_, ?_⟩
  · intro c cl' p hcl' hp
    by_cases hccn : c = cn
    · simp only [hccn, setClanMap_self, Option.some.injEq] at hcl'
      subst hcl'
      have hpm : p ≠ t ∧ p ∈ cl.members := (List.Nodup.mem_erase_iff hndcl).mp hp
      obtain ⟨r, hr, hrc⟩ := hmr cn cl p hc hpm.2
      refine ⟨r, ?_, by rw [hrc, hccn]⟩
      show setPlayerMap s.players t none p = some r
      rw [setPlayerMap_other _ _ _ _ hpm.1]
      exact hr
    · simp only [setClanMap_other _ _ _ _ hccn] at hcl'
      obtain ⟨r, hr, hrc⟩ := hmr c cl' p hcl' hp
      have hpt : p ≠ t := by
        intro he
        subst he
        rw [hr] at hrt
        injection hrt with he2
        exact hccn (by rw [← hrc, he2, hrtc])
      refine ⟨r, ?_, hrc⟩
      show setPlayerMap s.players t none p = some r
      rw [setPlayerMap_other _ _ _ _ hpt]
      exact hr
  · intro p r hr'
    have hr2 : setPlayerMap s.players t none p = some r := hr'
    by_cases hpt : p = t
    · subst hpt
      rw [setPlayerMap_self] at hr2
      exact absurd hr2 (by simp)
    · rw [setPlayerMap_other _ _ _ _ hpt] at hr2
      obtain ⟨cl0, hcl0, hp0⟩ := hrm p r hr2
      by_cases hrc : r.clan = cn
      · rw [hrc, hc] at hcl0
        injection hcl0 with he
        subst he
        refine ⟨{ cl with members := cl.members.erase t, mods := mm, coleaders := cc }, ?_, ?_⟩
        · show setClanMap s.clans cn _ r.clan = _
          rw [hrc, setClanMap_self]
        · exact (List.mem_erase_of_ne hpt).mpr hp0
      · refine ⟨cl0, ?_, hp0⟩
        show setClanMap s.clans cn _ r.clan = some cl0
        rw [setClanMap_other _ _ _ _ hrc]
        exact hcl0
  · intro c cl' hcl'
    by_cases hccn : c = cn
    · simp only [hccn, setClanMap_self, Option.some.injEq] at hcl'
      subst hcl'
      exact hndcl.erase t
    · simp only [setClanMap_other _ _ _ _ hccn] at hcl'
      exact hnd c cl' hcl'

theorem registryInv_insert (s : ClanData) (cn : String) (cl : Clan) (t : Nat)
    (mm cc : List Nat) (rr : String)
    (hInv : RegistryInv s) (hc : s.clans cn = some cl) (hrec : s.players t = none) :
    RegistryInv
      { clans := setClanMap s.clans cn
          (some { cl with members := cl.members ++ [t], mods := mm, coleaders := cc }),
        players := setPlayerMap s.players t (some { clan := cn, role := rr }) } := by
  obtain ⟨hmr, hrm, hnd⟩ := hInv
  have htnm : ∀ c0 cl0, s.clans c0 = some cl0 → t ∉ cl0.members := by
    intro c0 cl0 hc0 hmem
    obtain ⟨r, hr, -⟩ := hmr c0 cl0 t hc0 hmem
    rw [hrec] at hr
    exact absurd hr (by simp)
  refine ⟨?_, ?_, ?_⟩
  · intro c cl' p hcl' hp
    by_cases hccn : c = cn
    · simp only [hccn, setClanMap_self, Option.some.injEq] at hcl'
      subst hcl'
      have hp2 : p ∈ cl.members ++ [t] := hp
      rcases List.mem_append.mp hp2 with hpm | hpt
      · have hpt : p ≠ t := fun he => htnm cn cl hc (he ▸ hpm)
        obtain ⟨r, hr, hrc⟩ := hmr cn cl p hc hpm
        refine ⟨r, ?_, by rw [hrc, hccn]⟩
        show setPlayerMap s.players t _ p = some r
        rw [setPlayerMap_other _ _ _ _ hpt]
        exact hr
      · have hpt2 : p = t := by simpa using hpt
        refine ⟨{ clan := cn, role := rr }, ?_, by rw [hccn]⟩
        rw [hpt2]
        show setPlayerMap s.players t _ t = _
        rw [setPlayerMap_self]
    · simp only [setClanMap_other _ _ _ _ hccn] at hcl'
      obtain ⟨r, hr, hrc⟩ := hmr c cl' p hcl' hp
      have hpt : p ≠ t := fun he => htnm c cl' hcl' (he ▸ hp)
      refine ⟨r, ?_, hrc⟩
      show setPlayerMap s.players t _ p = some r
      rw [setPlayerMap_other _ _ _ _ hpt]
      exact hr
  · intro p r hr'
    have hr2 : setPlayerMap s.players t (some { clan := cn, role := rr }) p = some r := hr'
    by_cases hpt : p = t
    · rw [hpt, setPlayerMap_self] at hr2
      injection hr2 with he
      refine ⟨{ cl with members := cl.members ++ [t], mods := mm, coleaders := cc }, ?_, ?_⟩
      · have hclan : r.clan = cn := by rw [← he]
        rw [hclan]
        exact setClanMap_self _ _ _
      · simp [hpt]
    · rw [setPlayerMap_other _ _ _ _ hpt] at hr2
      obtain ⟨cl0, hcl0, hp0⟩ := hrm p r hr2
      by_cases hrc : r.clan = cn
      · rw [hrc, hc] at hcl0
        injection hcl0 with he
        refine ⟨{ cl with members := cl.members ++ [t], mods := mm, coleaders := cc }, ?_, ?_⟩
        · rw [hrc]
          exact setClanMap_self _ _ _
        · rw [← he] at hp0
          simp [hp0]
      · refine ⟨cl0, ?_, hp0⟩
        show setClanMap s.clans cn _ r.clan = some cl0
        rw [setClanMap_other _ _ _ _ hrc]
        exact hcl0
  · intro c cl' hcl'
    by_cases hccn : c = cn
    · simp only [hccn, setClanMap_self, Option.some.injEq] at hcl'
      subst hcl'
      show (cl.members ++ [t]).Nodup
      refine (hnd cn cl hc).append (List.nodup_singleton t) ?_
      intro a ha hb
      rw [List.mem_singleton] at hb
      subst hb
      exact htnm cn cl hc ha
    · simp only [setClanMap_other _ _ _ _ hccn] at hcl'
      exact hnd c cl' hcl'

theorem registryInv_create (s : ClanData) (cn : String) (lid : Nat)
    (hInv : RegistryInv s) (hc : s.clans cn = none) (hl : s.players lid = none) :
    RegistryInv
      { clans := setClanMap s.clans cn
          (some { leader := lid, members := [lid], mods := [], coleaders := [] }),
        players := setPlayerMap s.players lid (some { clan := cn, role := "Leader" }) } := by
  obtain ⟨hmr, hrm, hnd⟩ := hInv
  have hlnm : ∀ c0 cl0, s.clans c0 = some cl0 → lid ∉ cl0.members := by
    intro c0 cl0 hc0 hmem
    obtain ⟨r, hr, -⟩ := hmr c0 cl0 lid hc0 hmem
    rw [hl] at hr
    exact absurd hr (by simp)
  refine ⟨?_, ?_, ?_⟩
  · intro c cl' p hcl' hp
    by_cases hccn : c = cn
    · simp only [hccn, setClanMap_self, Option.some.injEq] at hcl'
      subst hcl'
      have hp2 : p ∈ [lid] := hp
      have hpl : p = lid := by simpa using hp2
      refine ⟨{ clan := cn, role := "Leader" }, ?_, by rw [hccn]⟩
      rw [hpl]
      show setPlayerMap s.players lid _ lid = _
      rw [setPlayerMap_self]
    · simp only [setClanMap_other _ _ _ _ hccn] at hcl'
      obtain ⟨r, hr, hrc⟩ := hmr c cl' p hcl' hp
      have hpl : p ≠ lid := fun he => hlnm c cl' hcl' (he ▸ hp)
      refine ⟨r, ?_, hrc⟩
      show setPlayerMap s.players lid _ p = some r
      rw [setPlayerMap_other _ _ _ _ hpl]
      exact hr
  · intro p r hr'
    have hr2 : setPlayerMap s.players lid (some { clan := cn, role := "Leader" }) p = some r := hr'
    by_cases hpl : p = lid
    · rw [hpl, setPlayerMap_self] at hr2
      injection hr2 with he
      refine ⟨{ leader := lid, members := [lid], mods := [], coleaders := [] }, ?_, ?_⟩
      · have hclan : r.clan = cn := by rw [← he]
        rw [hclan]
        exact setClanMap_self _ _ _
      · simp [hpl]
    · rw [setPlayerMap_other _ _ _ _ hpl] at hr2
      obtain ⟨cl0, hcl0, hp0⟩ := hrm p r hr2
      have hrc : r.clan ≠ cn := by
        intro he
        rw [he, hc] at hcl0
        exact absurd hcl0 (by simp)
      refine ⟨cl0, ?_, hp0⟩
      show setClanMap s.clans cn _ r.clan = some cl0
      rw [setClanMap_other _ _ _ _ hrc]
      exact hcl0
  · intro c cl' hcl'
    by_cases hccn : c = cn
    · simp only [hccn, setClanMap_self, Option.some.injEq] at hcl'
      subst hcl'
      simp
    · simp only [setClanMap_other _ _ _ _ hccn] at hcl'
      exact hnd c cl' hcl'

theorem registryInv_deleteClan (s : ClanData) (cn : String) (cl : Clan)
    (hInv : RegistryInv s) (hc : s.clans cn = some cl) :
    RegistryInv
      { clans := setClanMap s.clans cn none,
        players := delPlayers s.players cl.members } := by
  obtain ⟨hmr, hrm, hnd⟩ := hInv
  refine ⟨?_, ?_, ?_⟩
  · intro c cl' p hcl' hp
    by_cases hccn : c = cn
    · simp only [hccn, setClanMap_self] at hcl'
      exact absurd hcl' (by simp)
    · simp only [setClanMap_other _ _ _ _ hccn] at hcl'
      obtain ⟨r, hr, hrc⟩ := hmr c cl' p hcl' hp
      have hpm : p ∉ cl.members := by
        intro hmem
        obtain ⟨r2, hr2, hrc2⟩ := hmr cn cl p hc hmem
        rw [hr] at hr2
        injection hr2 with he
        exact hccn (by rw [← hrc, he, hrc2])
      refine ⟨r, ?_, hrc⟩
      show delPlayers s.players cl.members p = some r
      rw [delPlayers_apply, if_neg hpm]
      exact hr
  · intro p r hr'
    have hr2 : delPlayers s.players cl.members p = some r := hr'
    rw [delPlayers_apply] at hr2
    by_cases hpm : p ∈ cl.members
    · rw [if_pos hpm] at hr2
      exact absurd hr2 (by simp)
    · rw [if_neg hpm] at hr2
      obtain ⟨cl0, hcl0, hp0⟩ := hrm p r hr2
      have hrc : r.clan ≠ cn := by
        intro he
        rw [he, hc] at hcl0
        injection hcl0 with he2
        rw [← he2] at hp0
        exact hpm hp0
      refine ⟨cl0, ?_, hp0⟩
      show setClanMap s.clans cn none r.clan = some cl0
      rw [setClanMap_other _ _ _ _ hrc]
      exact hcl0
  · intro c cl' hcl'
    by_cases hccn : c = cn
    · simp only [hccn, setClanMap_self] at hcl'
      exact absurd hcl' (by simp)
    · simp only [setClanMap_other _ _ _ _ hccn] at hcl'
      exact hnd c cl' hcl'

theorem setClanMap_override (m : String → Option Clan) (k : String) (v' v : Option Clan) :
    setClanMap (setClanMap m k v') k v = setClanMap m k v := by
  funext n
  by_cases h : n = k <;> simp [setClanMap, h]

theorem registryInv_rejoin (s : ClanData) (cn : String) (cl : Clan) (t : Nat)
    (pr : PlayerRec)
    (hInv : RegistryInv s) (hc : s.clans cn = some cl)
    (hrec : s.players t = some pr) (hprc : pr.clan = cn) :
    RegistryInv
      { clans := setClanMap s.clans cn
          (some { cl with members := cl.members.erase t ++ [t],
                          mods := cl.mods.erase t, coleaders := cl.coleaders.erase t }),
        players := setPlayerMap s.players t (some { clan := cn, role := "Member" }) } := by
  obtain ⟨hmr, hrm, hnd⟩ := hInv
  have hndcl := hnd cn cl hc
  refine ⟨?_, ?_, ?_⟩
  · intro c cl' p hcl' hp
    by_cases hccn : c = cn
    · simp only [hccn, setClanMap_self, Option.some.injEq] at hcl'
      subst hcl'
      have hp2 : p ∈ cl.members.erase t ++ [t] := hp
      rcases List.mem_append.mp hp2 with hpm | hpt
      · have hpm2 : p ≠ t ∧ p ∈ cl.members := (List.Nodup.mem_erase_iff hndcl).mp hpm
        obtain ⟨r, hr, hrc⟩ := hmr cn cl p hc hpm2.2
        refine ⟨r, ?_, by rw [hrc, hccn]⟩
        show setPlayerMap s.players t _ p = some r
        rw [setPlayerMap_other _ _ _ _ hpm2.1]
        exact hr
      · have hpt2 : p = t := by simpa using hpt
        refine ⟨{ clan := cn, role := "Member" }, ?_, by rw [hccn]⟩
        rw [hpt2]
        show setPlayerMap s.players t _ t = _
        rw [setPlayerMap_self]
    · simp only [setClanMap_other _ _ _ _ hccn] at hcl'
      obtain ⟨r, hr, hrc⟩ := hmr c cl' p hcl' hp
      have hpt : p ≠ t := by
        intro he
        rw [he, hrec] at hr
        injection hr with he2
        exact hccn (by rw [← hrc, ← he2, hprc])
      refine ⟨r, ?_, hrc⟩
      show setPlayerMap s.players t _ p = some r
      rw [setPlayerMap_other _ _ _ _ hpt]
      exact hr
  · intro p r hr'
    have hr2 : setPlayerMap s.players t (some { clan := cn, role := "Member" }) p = some r := hr'
    by_cases hpt : p = t
    · rw [hpt, setPlayerMap_self] at hr2
      injection hr2 with he
      refine ⟨{ cl with members := cl.members.erase t ++ [t],
                        mods := cl.mods.erase t, coleaders := cl.coleaders.erase t }, ?_, ?_⟩
      · have hclan : r.clan = cn := by rw [← he]
        rw [hclan]
        exact setClanMap_self _ _ _
      · simp [hpt]
    · rw [setPlayerMap_other _ _ _ _ hpt] at hr2
      obtain ⟨cl0, hcl0, hp0⟩ := hrm p r hr2
      by_cases hrc : r.clan = cn
      · rw [hrc, hc] at hcl0
        injection hcl0 with he
        rw [← he] at hp0
        refine ⟨{ cl with members := cl.members.erase t ++ [t],
                          mods := cl.mods.erase t, coleaders := cl.coleaders.erase t }, ?_, ?_⟩
        · rw [hrc]
          exact setClanMap_self _ _ _
        · show p ∈ cl.members.erase t ++ [t]
          exact List.mem_append.mpr (Or.inl ((List.mem_erase_of_ne hpt).mpr hp0))
      · refine ⟨cl0, ?_, hp0⟩
        show setClanMap s.clans cn _ r.clan = some cl0
        rw [setClanMap_other _ _ _ _ hrc]
        exact hcl0
  · intro c cl' hcl'
    by_cases hccn : c = cn
    · simp only [hccn, setClanMap_self, Option.some.injEq] at hcl'
      subst hcl'
      show (cl.members.erase t ++ [t]).Nodup
      refine (hndcl.erase t).append (List.nodup_singleton t) ?_
      intro a ha hb
      rw [List.mem_singleton] at hb
      subst hb
      exact hndcl.not_mem_erase ha
    · simp only [setClanMap_other _ _ _ _ hccn] at hcl'
      exact hnd c cl' hcl'

theorem registryInv_move (s : ClanData) (cn oldc : String) (cl oldCl : Clan) (t : Nat)
    (pr : PlayerRec)
    (hInv : RegistryInv s) (hc : s.clans cn = some cl) (hold : s.clans oldc = some oldCl)
    (hrec : s.players t = some pr) (hprc : pr.clan = oldc) (hne : oldc ≠ cn) :
    RegistryInv
      { clans := setClanMap (setClanMap s.clans oldc
          (some { oldCl with members := oldCl.members.erase t, mods := oldCl.mods.erase t, coleaders := oldCl.coleaders.erase t })) cn
          (some { cl with members := cl.members ++ [t] }),
        players := setPlayerMap s.players t (some { clan := cn, role := "Member" }) } := by
  obtain ⟨hmr, hrm, hnd⟩ := hInv
  have hndold := hnd oldc oldCl hold
  have htcn : t ∉ cl.members := by
    intro hmem
    obtain ⟨r, hr, hrc⟩ := hmr cn cl t hc hmem
    rw [hrec] at hr
    injection hr with he
    exact hne (by rw [← hprc, he, hrc])
  have hlook : ∀ c, setClanMap (setClanMap s.clans oldc
      (some { oldCl with members := oldCl.members.erase t, mods := oldCl.mods.erase t, coleaders := oldCl.coleaders.erase t })) cn
      (some { cl with members := cl.members ++ [t] }) c =
      (if c = cn then some { cl with members := cl.members ++ [t] }
       else if c = oldc then some { oldCl with members := oldCl.members.erase t, mods := oldCl.mods.erase t, coleaders := oldCl.coleaders.erase t }
       else s.clans c) := by
    intro c
    by_cases h1 : c = cn
    · simp [setClanMap, h1]
    · by_cases h2 : c = oldc <;> simp [setClanMap, h1, h2]
  refine ⟨?_, ?_, ?_⟩
  · intro c cl' p hcl' hp
    have hcl2 : (if c = cn then some { cl with members := cl.members ++ [t] }
       else if c = oldc then some { oldCl with members := oldCl.members.erase t, mods := oldCl.mods.erase t, coleaders := oldCl.coleaders.erase t }
       else s.clans c) = some cl' := by rw [← hlook]; exact hcl'
    by_cases h1 : c = cn
    · rw [if_pos h1, Option.some.injEq] at hcl2
      subst hcl2
      have hp2 : p ∈ cl.members ++ [t] := hp
      rcases List.mem_append.mp hp2 with hpm | hpt
      · have hpt : p ≠ t := fun he => htcn (he ▸ hpm)
        obtain ⟨r, hr, hrc⟩ := hmr cn cl p hc hpm
        refine ⟨r, ?_, by rw [hrc, h1]⟩
        show setPlayerMap s.players t _ p = some r
        rw [setPlayerMap_other _ _ _ _ hpt]
        exact hr
      · have hpt2 : p = t := by simpa using hpt
        refine ⟨{ clan := cn, role := "Member" }, ?_, by rw [h1]⟩
        rw [hpt2]
        show setPlayerMap s.players t _ t = _
        rw [setPlayerMap_self]
    · rw [if_neg h1] at hcl2
      by_cases h2 : c = oldc
      · rw [if_pos h2, Option.some.injEq] at hcl2
        subst hcl2
        have hpm2 : p ≠ t ∧ p ∈ oldCl.members := (List.Nodup.mem_erase_iff hndold).mp hp
        obtain ⟨r, hr, hrc⟩ := hmr oldc oldCl p hold hpm2.2
        refine ⟨r, ?_, by rw [hrc, h2]⟩
        show setPlayerMap s.players t _ p = some r
        rw [setPlayerMap_other _ _ _ _ hpm2.1]
        exact hr
      · rw [if_neg h2] at hcl2
        obtain ⟨r, hr, hrc⟩ := hmr c cl' p hcl2 hp
        have hpt : p ≠ t := by
          intro he
          rw [he, hrec] at hr
          injection hr with he2
          exact h2 (by rw [← hrc, ← he2, hprc])
        refine ⟨r, ?_, hrc⟩
        show setPlayerMap s.players t _ p = some r
        rw [setPlayerMap_other _ _ _ _ hpt]
        exact hr
  · intro p r hr'
    have hr2 : setPlayerMap s.players t (some { clan := cn, role := "Member" }) p = some r := hr'
    by_cases hpt : p = t
    · rw [hpt, setPlayerMap_self] at hr2
      injection hr2 with he
      refine ⟨{ cl with members := cl.members ++ [t] }, ?_, ?_⟩
      · have hclan : r.clan = cn := by rw [← he]
        show setClanMap _ cn _ r.clan = _
        rw [hclan, setClanMap_self]
      · simp [hpt]
    · rw [setPlayerMap_other _ _ _ _ hpt] at hr2
      obtain ⟨cl0, hcl0, hp0⟩ := hrm p r hr2
      by_cases hrc : r.clan = cn
      · rw [hrc, hc] at hcl0
        injection hcl0 with he
        rw [← he] at hp0
        refine ⟨{ cl with members := cl.members ++ [t] }, ?_, ?_⟩
        · show setClanMap _ cn _ r.clan = _
          rw [hrc, setClanMap_self]
        · simp [hp0]
      · by_cases hro : r.clan = oldc
        · rw [hro, hold] at hcl0
          injection hcl0 with he
          rw [← he] at hp0
          refine ⟨{ oldCl with members := oldCl.members.erase t, mods := oldCl.mods.erase t, coleaders := oldCl.coleaders.erase t }, ?_, ?_⟩
          · exact (hlook r.clan).trans (by rw [if_neg hrc, if_pos hro])
          · show p ∈ oldCl.members.erase t
            exact (List.mem_erase_of_ne hpt).mpr hp0
        · refine ⟨cl0, ?_, hp0⟩
          exact (hlook r.clan).trans (by rw [if_neg hrc, if_neg hro]; exact hcl0)
  · intro c cl' hcl'
    have hcl2 : (if c = cn then some { cl with members := cl.members ++ [t] }
       else if c = oldc then some { oldCl with members := oldCl.members.erase t, mods := oldCl.mods.erase t, coleaders := oldCl.coleaders.erase t }
       else s.clans c) = some cl' := by rw [← hlook]; exact hcl'
    by_cases h1 : c = cn
    · rw [if_pos h1, Option.some.injEq] at hcl2
      subst hcl2
      show (cl.members ++ [t]).Nodup
      refine (hnd cn cl hc).append (List.nodup_singleton t) ?_
      intro a ha hb
      rw [List.mem_singleton] at hb
      subst hb
      exact htcn ha
    · rw [if_neg h1] at hcl2
      by_cases h2 : c = oldc
      · rw [if_pos h2, Option.some.injEq] at hcl2
        subst hcl2
        exact hndold.erase t
      · rw [if_neg h2] at hcl2
        exact hnd c cl' hcl2

theorem state_of_eq {b b' : Bool} {m m' : String} {s1 s2 : ClanData}
    (h : (some (b, m, s1) : Option (Bool × String × ClanData)) = some (b', m', s2)) :
    s2 = s1 := by
  simp only [Option.some.injEq, Prod.mk.injEq] at h
  exact h.2.2.symm

theorem create_clan_inv (lid : Nat) (cn : String) (s s' : ClanData) (b : Bool) (m : String)
    (hInv : RegistryInv s) (hd : s.players lid = none)
    (h : create_clan lid cn s = some (b, m, s')) : RegistryInv s' := by
  simp only [create_clan] at h
  split at h
  · rw [state_of_eq h]
    exact hInv
  · rename_i heq
    rw [state_of_eq h]
    exact registryInv_create s cn lid hInv heq hd

theorem kick_member_inv (hashFn : String → Nat) (k : Nat) (tn cn : String)
    (s s' : ClanData) (b : Bool) (m : String)
    (hInv : RegistryInv s)
    (h : kick_member hashFn k tn cn s = some (b, m, s')) : RegistryInv s' := by
  simp only [kick_member] at h
  repeat' split at h
  all_goals try exact Option.noConfusion h
  all_goals try rw [state_of_eq h]
  all_goals try exact hInv
  rename_i hne0 hnek x0 clan heqclan hnm px pb hpb hpbf lx il heql hil
  have hmem2 : find_player_id_by_name hashFn tn ∈ clan.members := not_not.mp hnm
  exact registryInv_remove s cn clan (find_player_id_by_name hashFn tn) _ _ hInv heqclan hmem2

theorem registryInv_update_roles (s : ClanData) (cn : String) (cl cl' : Clan) (t : Nat)
    (pr pr' : PlayerRec)
    (hInv : RegistryInv s) (hc : s.clans cn = some cl) (hmem : cl'.members = cl.members)
    (hrec : s.players t = some pr) (hclan : pr'.clan = pr.clan) :
    RegistryInv { clans := setClanMap s.clans cn (some cl'),
                  players := setPlayerMap s.players t (some pr') } := by
  refine registryInv_transfer s _ ?_ ?_ hInv
  · intro c
    by_cases h : c = cn <;> simp [setClanMap, h, hc, hmem]
  · intro p
    by_cases h : p = t <;> simp [setPlayerMap, h, hrec, hclan]

theorem invite_member_inv (hashFn : String → Nat) (i : Nat) (tn cn : String)
    (s s' : ClanData) (b : Bool) (m : String)
    (hInv : RegistryInv s)
    (h : invite_member hashFn i tn cn s = some (b, m, s')) : RegistryInv s' := by
  simp only [invite_member] at h
  repeat' split at h
  all_goals try exact Option.noConfusion h
  all_goals try rw [state_of_eq h]
  all_goals try exact hInv
  rename_i hne0 px pb hpb hpbf rx hrecnone cx clan heqclan
  exact registryInv_insert s cn clan (find_player_id_by_name hashFn tn)
    clan.mods clan.coleaders "Member" hInv heqclan hrecnone

theorem disband_clan_inv (lid : Nat) (cn : String) (s s' : ClanData) (b : Bool) (m : String)
    (hInv : RegistryInv s)
    (h : disband_clan lid cn s = some (b, m, s')) : RegistryInv s' := by
  simp only [disband_clan] at h
  repeat' split at h
  all_goals try exact Option.noConfusion h
  all_goals try rw [state_of_eq h]
  all_goals try exact hInv
  rename_i ix il heqil hilf cx clan heqclan
  exact registryInv_deleteClan s cn clan hInv heqclan

theorem delete_clan_inv (cn : String) (s s' : ClanData) (b : Bool) (m : String)
    (hInv : RegistryInv s)
    (h : delete_clan cn s = some (b, m, s')) : RegistryInv s' := by
  simp only [delete_clan] at h
  repeat' split at h
  all_goals try exact Option.noConfusion h
  all_goals try rw [state_of_eq h]
  all_goals try exact hInv
  rename_i cx clan heqclan
  exact registryInv_deleteClan s cn clan hInv heqclan

theorem force_kick_inv (hashFn : String → Nat) (tn : String)
    (s s' : ClanData) (b : Bool) (m : String)
    (hInv : RegistryInv s)
    (h : force_kick hashFn tn s = some (b, m, s')) : RegistryInv s' := by
  simp only [force_kick] at h
  repeat' split at h
  all_goals try exact Option.noConfusion h
  all_goals try rw [state_of_eq h]
  all_goals try exact hInv
  rename_i hne0 rx pr heqrec cx clan heqclan hnm
  have hmem2 : find_player_id_by_name hashFn tn ∈ clan.members := not_not.mp hnm
  exact registryInv_remove s pr.clan clan (find_player_id_by_name hashFn tn) _ _ hInv heqclan hmem2

theorem promote_member_inv (hashFn : String → Nat) (pid : Nat) (tn cn role : String)
    (s s' : ClanData) (b : Bool) (m : String)
    (hInv : RegistryInv s)
    (h : promote_member hashFn pid tn cn role s = some (b, m, s')) : RegistryInv s' := by
  simp only [promote_member] at h
  repeat' split at h
  all_goals try exact Option.noConfusion h
  all_goals try rw [state_of_eq h]
  all_goals try exact hInv
  case _ hne0 px pb hpb hpbf cx clan heqclan hrole hcur rx pr heqrec =>
    exact registryInv_update_roles s cn clan _ (find_player_id_by_name hashFn tn)
      pr _ hInv heqclan rfl heqrec rfl
  case _ hne0 px pb hpb hpbf cx clan heqclan hrole1 hrole2 hcur rx pr heqrec =>
    exact registryInv_update_roles s cn clan _ (find_player_id_by_name hashFn tn)
      pr _ hInv heqclan rfl heqrec rfl
  case _ hne0 px pb hpb hpbf cx clan heqclan hrole1 hrole2 hcur1 hcur2 hmods rx pr heqrec =>
    exact registryInv_update_roles s cn clan _ (find_player_id_by_name hashFn tn)
      pr _ hInv heqclan rfl heqrec rfl

theorem demote_member_inv (hashFn : String → Nat) (did : Nat) (tn cn : String)
    (s s' : ClanData) (b : Bool) (m : String)
    (hInv : RegistryInv s)
    (h : demote_member hashFn did tn cn s = some (b, m, s')) : RegistryInv s' := by
  simp only [demote_member] at h
  repeat' split at h
  all_goals try exact Option.noConfusion h
  all_goals try rw [state_of_eq h]
  all_goals try exact hInv
  case _ hne0 px pb hpb hpbf cx clan heqclan hcur hco rx pr heqrec =>
    exact registryInv_update_roles s cn clan _ (find_player_id_by_name hashFn tn)
      pr _ hInv heqclan rfl heqrec rfl
  case _ hne0 px pb hpb hpbf cx clan heqclan hcur1 hcur2 hmods rx pr heqrec =>
    exact registryInv_update_roles s cn clan _ (find_player_id_by_name hashFn tn)
      pr _ hInv heqclan rfl heqrec rfl

theorem force_join_inv (hashFn : String → Nat) (tn cn : String)
    (s s' : ClanData) (b : Bool) (m : String)
    (hInv : RegistryInv s)
    (h : force_join hashFn tn cn s = some (b, m, s')) : RegistryInv s' := by
  simp only [force_join] at h
  repeat' split at h
  all_goals try exact Option.noConfusion h
  all_goals try rw [state_of_eq h]
  all_goals try exact hInv
  rename_i hne0 cx0 clan0 heq0 removedv s1 heqrem cx1 clan2 heqfin
  cases hrec : s.players (find_player_id_by_name hashFn tn) with
  | none =>
      simp only [hrec] at heqrem
      injection heqrem with hs1
      subst hs1
      exact registryInv_insert s cn clan2 (find_player_id_by_name hashFn tn)
        clan2.mods clan2.coleaders "Member" hInv heqfin hrec
  | some pr =>
      simp only [hrec] at heqrem
      cases hold : s.clans pr.clan with
      | none =>
          simp only [hold] at heqrem
          exact Option.noConfusion heqrem
      | some oldCl =>
          simp only [hold] at heqrem
          by_cases hmem : find_player_id_by_name hashFn tn ∉ oldCl.members
          · rw [if_pos hmem] at heqrem
            exact Option.noConfusion heqrem
          · rw [if_neg hmem] at heqrem
            injection heqrem with hs1
            subst hs1
            have hfin2 : setClanMap s.clans pr.clan
                (some { oldCl with
                    members := oldCl.members.erase (find_player_id_by_name hashFn tn),
                    mods := oldCl.mods.erase (find_player_id_by_name hashFn tn),
                    coleaders := oldCl.coleaders.erase (find_player_id_by_name hashFn tn) }) cn
                = some clan2 := heqfin
            by_cases hsame : pr.clan = cn
            · rw [hsame, setClanMap_self] at hfin2
              injection hfin2 with hcl2
              subst hcl2
              rw [hsame]
              have key : RegistryInv
                  { clans := setClanMap (setClanMap s.clans cn
                      (some { oldCl with
                          members := oldCl.members.erase (find_player_id_by_name hashFn tn),
                          mods := oldCl.mods.erase (find_player_id_by_name hashFn tn),
                          coleaders := oldCl.coleaders.erase (find_player_id_by_name hashFn tn) })) cn
                      (some { leader := oldCl.leader,
                              members := oldCl.members.erase (find_player_id_by_name hashFn tn) ++
                                [find_player_id_by_name hashFn tn],
                              mods := oldCl.mods.erase (find_player_id_by_name hashFn tn),
                              coleaders := oldCl.coleaders.erase (find_player_id_by_name hashFn tn) }),
                    players := setPlayerMap s.players (find_player_id_by_name hashFn tn)
                      (some { clan := cn, role := "Member" }) } := by
                rw [setClanMap_override]
                exact registryInv_rejoin s cn oldCl (find_player_id_by_name hashFn tn) pr hInv
                  (hsame ▸ hold) hrec hsame
              exact key
            · have hcn : s.clans cn = some clan2 := by
                rw [setClanMap_other _ _ _ _ (fun he => hsame he.symm)] at hfin2
                exact hfin2
              exact registryInv_move s cn pr.clan clan2 oldCl
                (find_player_id_by_name hashFn tn) pr hInv hcn hold hrec rfl hsame

theorem applyOp_preserves_inv (hashFn : String → Nat) (op : Op) (s s' : ClanData)
    (b : Bool) (m : String)
    (hInv : RegistryInv s)
    (hdisc : ∀ lid c, op = Op.createClan lid c → s.players lid = none)
    (h : applyOp hashFn op s = some (b, m, s')) : RegistryInv s' := by
  cases op
  case createClan lid c => exact create_clan_inv lid c s s' b m hInv (hdisc lid c rfl) h
  case kickMember kid tn c => exact kick_member_inv hashFn kid tn c s s' b m hInv h
  case inviteMember iid tn c => exact invite_member_inv hashFn iid tn c s s' b m hInv h
  case disbandClan lid c => exact disband_clan_inv lid c s s' b m hInv h
  case promoteMember pid tn c r => exact promote_member_inv hashFn pid tn c r s s' b m hInv h
  case demoteMember did tn c => exact demote_member_inv hashFn did tn c s s' b m hInv h
  case forceKick tn => exact force_kick_inv hashFn tn s s' b m hInv h
  case forceJoin tn c => exact force_join_inv hashFn tn c s s' b m hInv h
  case deleteClan c => exact delete_clan_inv c s s' b m hInv h

theorem runOps_preserves_inv (hashFn : String → Nat) (ops : List Op) (s s' : ClanData)
    (hInv : RegistryInv s) (hdisc : Disciplined hashFn ops s)
    (h : runOps hashFn ops s = some s') : RegistryInv s' := by
  induction ops generalizing s with
  | nil =>
      simp only [runOps] at h
      injection h with h2
      rw [← h2]
      exact hInv
  | cons op rest ih =>
      simp only [runOps] at h
      cases happ : applyOp hashFn op s with
      | none => rw [happ] at h; exact Option.noConfusion h
      | some r =>
          obtain ⟨b, m, s1⟩ := r
          simp only [happ] at h
          exact ih s1 (applyOp_preserves_inv hashFn op s s1 b m hInv hdisc.1 happ)
            (hdisc.2 b m s1 happ) h

theorem emptyData_inv : RegistryInv emptyData := by
  refine ⟨?_, ?_, ?_⟩
  · intro c cl p h
    exact absurd h (by simp [emptyData])
  · intro p r h
    exact absurd h (by simp [emptyData])
  · intro c cl h
    exact absurd h (by simp [emptyData])

/-- C3 (amended): for every sequence of registry operations from the empty
registry in which every CreateClan call is made by a caller that has no
Player Record at that moment (the discipline the spec requires of the
calling layer), every player id appears in the members list of at most one
clan.  The original claim, which allowed CreateClan for arbitrary callers,
is refuted by `create_clan_unchecked_double_membership`. -/
theorem membership_unique_of_disciplined (hashFn : String → Nat) (ops : List Op)
    (s : ClanData) (h : runOps hashFn ops emptyData = some s)
    (hdisc : Disciplined hashFn ops emptyData)
    (p : Nat) (c1 c2 : String) (cl1 cl2 : Clan)
    (h1 : s.clans c1 = some cl1) (h2 : s.clans c2 = some cl2)
    (hp1 : p ∈ cl1.members) (hp2 : p ∈ cl2.members) : c1 = c2 := by
  obtain ⟨hmr, -, -⟩ := runOps_preserves_inv hashFn ops emptyData s emptyData_inv hdisc h
  obtain ⟨r1, hr1, hc1⟩ := hmr c1 cl1 p h1 hp1
  obtain ⟨r2, hr2, hc2⟩ := hmr c2 cl2 p h2 hp2
  rw [hr1] at hr2
  injection hr2 with he
  rw [← hc1, he, hc2]

theorem membership_unique_of_disciplined_witness :
    (runOps hashZero [Op.createClan 1 "a"] emptyData = some demoState ∧
     Disciplined hashZero [Op.createClan 1 "a"] emptyData ∧
     demoState.clans "a" = some { leader := 1, members := [1], mods := [], coleaders := [] } ∧
     (1 : Nat) ∈ ({ leader := 1, members := [1], mods := [], coleaders := [] } : Clan).members) ∧
    "a" = "a" :=
  ⟨⟨rfl, ⟨fun _ _ _ => rfl, fun _ _ _ _ => trivial⟩, rfl, by decide⟩,
   membership_unique_of_disciplined hashZero [Op.createClan 1 "a"] demoState rfl
     ⟨fun _ _ _ => rfl, fun _ _ _ _ => trivial⟩ 1 "a" "a" _ _ rfl rfl (by decide) (by decide)⟩

/-- Counterexample to C3 as stated: the registry does not re-check that the
caller of CreateClan is clanless, so two CreateClan calls by player 7 from
the empty registry leave 7 in the members lists of two different clans. -/
theorem create_clan_unchecked_double_membership :
    7 ∈ membersAfter hashZero [Op.createClan 7 "a", Op.createClan 7 "b"] "a" ∧
    7 ∈ membersAfter hashZero [Op.createClan 7 "a", Op.createClan 7 "b"] "b" ∧
    "a" ≠ "b" := by
  refine ⟨by decide, by decide, by decide⟩

/-- C2: evaluation of the code at the failing input.  From the empty
registry: player 1 creates clan "c", invites "bob" (player 2), and promotes
the Member "bob" directly to Co-Leader.  The resulting clan has player 2 in
both mods and coleaders, so the claimed invariant mods ∩ coleaders = ∅ is
violated in a reachable state (the source appends to both lists in the
Member → Co-Leader branch of promote_member). -/
theorem promote_to_coleader_breaks_disjointness :
    clanAfter hashDemo [Op.createClan 1 "c", Op.inviteMember 1 "bob" "c",
        Op.promoteMember 1 "bob" "c" "Co-Leader"] "c"
      = some { leader := 1, members := [1, 2], mods := [2], coleaders := [2] } ∧
    2 ∈ Clan.mods { leader := 1, members := [1, 2], mods := [2], coleaders := [2] } ∧
    2 ∈ Clan.coleaders { leader := 1, members := [1, 2], mods := [2], coleaders := [2] } := by
  refine ⟨by decide, by decide, by decide⟩

/-- C4: evaluation of the code at two failing inputs, refuting the claim
that every operation returns an (ok, message) pair.  First: promoting a
resolvable player with no Player Record raises KeyError in the source
(`players[str(target_id)]["role"] = "Mod"` with the key absent) — modelled
as `none`.  Second: demoting a player recorded as Co-Leader of another clan
raises ValueError (`clan["coleaders"].remove(target_id)` with the id absent
from this clan's list). -/
theorem registry_ops_can_raise :
    runOps hashDemo [Op.createClan 1 "a", Op.promoteMember 1 "bob" "a" "Mod"] emptyData
      = none ∧
    runOps hashDemo [Op.createClan 1 "a", Op.createClan 2 "b",
        Op.inviteMember 1 "carl" "a", Op.promoteMember 1 "carl" "a" "Co-Leader",
        Op.demoteMember 2 "carl" "b"] emptyData = none := by
  exact ⟨rfl, rfl⟩
